import Mathlib

/-!
Verification of the system-assembly and clock/reset-sequencing layer of the
USB3-PIPE Versa ECP5 target (src/versa_ecp5.py) against its specification.

The file embeds, shallowly:
  * the power-on-reset sequencer of the clock/reset generator `_CRG`
    (lines 67-72 of the source),
  * the statement list of `_CRG.__init__` (lines 55-79), used to settle the
    reset-synchronizer claims,
  * the handshake-stream `connect` wiring and its per-cycle transfer
    semantics (the connect implementation lives in the migen library; it is
    modelled from the spec, its call sites are lines 123-124 of the source),
  * the clock-domain generator (the ECP5PLL implementation lives in litex;
    it is modelled from the spec, its call sites are lines 74-79),
  * the assembly sequence of `USB3SoC.__init__` (lines 83-166), with its
    conditional subsystems, connector handling, reset wiring and LED taps.
-/

/-! ## Power-on-reset sequencer (`_CRG.__init__`, lines 67-72)

Source:
  por_count = Signal(16, reset=2**16-1)
  por_done  = Signal()
  self.comb += self.cd_por.clk.eq(ClockSignal())
  self.comb += por_done.eq(por_count == 0)
  self.sync.por += If(~por_done, por_count.eq(por_count - 1))

`por_count` is a 16-bit register; the decrement is guarded by `~por_done`,
so it only happens while the counter is nonzero and never wraps below 0.
-/

/-- Reset value of `por_count`: `2**16-1` (line 68). -/
def porInit : Nat := 2 ^ 16 - 1

/-- Combinational `por_done` flag: `por_count == 0` (line 71). -/
def por_done (count : Nat) : Bool := count == 0

/-- One `por`-domain clock cycle (line 72): decrement while not done.
The guard keeps the 16-bit register from wrapping, so plain truncated
subtraction is exact. -/
def porStep (count : Nat) : Nat := if por_done count then count else count - 1

/-- `por_count` after `n` active cycles, the domain having been activated at
cycle 0 with the reset value. -/
def porCount : Nat → Nat
  | 0 => porInit
  | n + 1 => porStep (porCount n)

/-- `cd_por` is declared with `reset_less=True` (line 58). -/
def cd_por_reset_less : Bool := true

/-! ## Handshake streams and `connect`

`usb3_pipe.source.connect(usb3_core.sink)` and
`usb3_core.source.connect(usb3_pipe.sink)` (lines 123-124) wire the two
subsystems together. The `connect` implementation itself lives in the
migen/litex stream library, outside this repository checkout, so it is
modelled from the spec below.
-/

/-- Per-cycle values of one stream endpoint's signals. -/
structure Endpoint where
  valid : Bool
  ready : Bool
  first : Bool
  last : Bool
  payload : Nat
deriving DecidableEq

/-- Signals driven by the source side of a stream in one cycle. -/
structure FwdDrive where
  valid : Bool
  first : Bool
  last : Bool
  payload : Nat
deriving DecidableEq

/-- Modelled from the spec: `connect(source, sink)` (migen stream library,
not under src/; called at lines 123-124) wires `source.valid → sink.valid`,
`source.payload → sink.payload`, `source.first/last → sink.first/last`, and
the reverse wire `sink.ready → source.ready`. Given the source-driven
forward signals and the sink-driven `ready`, it returns the resulting
per-cycle view at the source endpoint and at the sink endpoint. -/
def connect (src : FwdDrive) (sinkReady : Bool) : Endpoint × Endpoint :=
  (⟨src.valid, sinkReady, src.first, src.last, src.payload⟩,
   ⟨src.valid, sinkReady, src.first, src.last, src.payload⟩)

/-- A transfer happens on a cycle iff `valid` and `ready` both hold. -/
def xfer (e : Endpoint) : Bool := e.valid && e.ready

/-- Payloads transferred over a cycle-by-cycle trace, in order. -/
def transfers : List Endpoint → List Nat
  | [] => []
  | e :: es => if xfer e then e.payload :: transfers es else transfers es

/-- Source-endpoint view of a connected pair over a trace of source drives
and sink readiness values. -/
def sourceTrace (srcs : List FwdDrive) (readys : List Bool) : List Endpoint :=
  List.zipWith (fun s r => (connect s r).1) srcs readys

/-- Sink-endpoint view of a connected pair over the same trace. -/
def sinkTrace (srcs : List FwdDrive) (readys : List Bool) : List Endpoint :=
  List.zipWith (fun s r => (connect s r).2) srcs readys

/-- A concrete three-cycle trace of source drives, used as evaluation
input. -/
def demoDrives : List FwdDrive :=
  [⟨true, true, false, 5⟩, ⟨true, false, false, 6⟩, ⟨false, false, false, 7⟩]

/-- A concrete three-cycle trace of sink readiness values. -/
def demoReadys : List Bool := [true, false, true]

/-- Second cycle of the sink view of the demo trace: valid but not ready. -/
def demoSink2 : Endpoint := ⟨true, false, false, false, 6⟩

/-- Third cycle of the sink view of the demo trace: ready but not valid. -/
def demoSink3 : Endpoint := ⟨false, true, false, false, 7⟩

/-! ## Clock-domain generator (`_CRG.__init__`, lines 74-79)

Source:
  self.submodules.pll = pll = ECP5PLL()
  pll.vco_freq_range  = (400e6, 1000e6) # FIXME: overriden, should be (400e6, 800e6)
  pll.register_clkin(clk100, 100e6)
  pll.create_clkout(self.cd_sys, sys_clk_freq)
  pll.create_clkout(self.cd_clk250, 250e6)

The ECP5PLL implementation is in the litex library, outside this repository
checkout; the generator is modelled from the spec below, with the VCO range
taken from line 76 of the source.
-/

/-- Lower bound of the multiplier's intermediate (VCO) band, line 76. -/
def vcoMin : Nat := 400000000

/-- Upper bound of the multiplier's intermediate (VCO) band, line 76. -/
def vcoMax : Nat := 1000000000

/-- An output frequency is derivable from a given intermediate frequency by
one bounded integer divisor. -/
def divisorOk (vco freq : Nat) : Bool :=
  freq != 0 && vco % freq == 0 && vco / freq != 0 && decide (vco / freq ≤ 128)

/-- A single multiplier value yields every requested output: the
intermediate frequency lies in the valid band and each output divides it. -/
def configOk (clkin m : Nat) (freqs : List Nat) : Bool :=
  decide (vcoMin ≤ clkin * m) && decide (clkin * m ≤ vcoMax) &&
    freqs.all (fun f => divisorOk (clkin * m) f)

/-- Modelled from the spec: the frequency multiplier (litex ECP5PLL, not
under src/) validates at configuration time that the requested outputs are
jointly achievable by a single bounded multiplier configuration whose
intermediate frequency lies within the valid band. -/
def pllAchievable (clkin : Nat) (freqs : List Nat) : Bool :=
  (List.range 129).any (fun m => m != 0 && configOk clkin m freqs)

/-- Modelled from the spec: the clock-domain generator fails at
configuration time when the requested output set is unachievable, and
otherwise succeeds, registering one period constraint per output domain. -/
def clockGen (clkin : Nat) (outs : List (String × Nat)) :
    Except String (List (String × Nat)) :=
  if pllAchievable clkin (outs.map Prod.snd) then Except.ok outs
  else Except.error ("pll: unachievable output set")

/-! ## Platform resources and connector pads

The USB3 pad groups come from `_usb3_io` (lines 31-51 of the source); the
board's own resources come from the litex-boards Versa ECP5 platform file,
outside this repository checkout.
-/

/-- Pad groups of the `_usb3_io` extension (lines 31-51): resource name and
its positive/negative pins. -/
def usb3_io : List (String × List String) :=
  [("sma_tx", ["W8", "W9"]),
   ("sma_rx", ["Y7", "Y8"]),
   ("pcie_rx", ["Y5", "Y6"]),
   ("pcie_tx", ["W4", "W5"])]

/-- Modelled from the spec: the resources of the base board platform
(litex-boards versa_ecp5, not under src/) that this design requests. -/
def basePlatformResources : List String :=
  ["clk100", "rst_n", "eth_clocks", "eth", "user_led"]

/-- Resources available after `platform.add_extension(_usb3_io)` (line 188). -/
def platformResources : List String :=
  basePlatformResources ++ usb3_io.map Prod.fst

/-- Modelled from the spec: `platform.request` (litex generic_platform, not
under src/) returns the named resource, and raises — aborting assembly —
when no such resource exists. -/
def platformRequest (name : String) : Except String String :=
  if platformResources.contains name then Except.ok name
  else Except.error ("no resource " ++ name)

/-- A connector value is supported when both of its pad groups exist on the
platform (they are requested at lines 109-110 as `connector + "_tx"` and
`connector + "_rx"`). -/
def connectorSupported (c : String) : Bool :=
  platformResources.contains (c ++ "_tx") && platformResources.contains (c ++ "_rx")

/-- Serializer binding produced at lines 104-111: physical channel index and
the two pad groups. -/
structure SerdesInfo where
  channel : Nat
  txPins : List String
  rxPins : List String
deriving DecidableEq

/-- Instantiation of `ECP5USB3SerDes` (lines 104-111): request the two pad
groups of the connector — failing if either does not exist — and bind
`channel = 1 if connector == "sma" else 0` (line 111). -/
def serdesStep (connector : String) : Except String SerdesInfo :=
  match platformRequest (connector ++ "_tx") with
  | Except.error e => Except.error e
  | Except.ok tx =>
    match platformRequest (connector ++ "_rx") with
    | Except.error e => Except.error e
    | Except.ok rx =>
      Except.ok
        { channel := if connector == "sma" then 1 else 0
          txPins := (usb3_io.lookup tx).getD []
          rxPins := (usb3_io.lookup rx).getD [] }

/-! ## Combinational drivers of the assembled design -/

/-- Combinational driver expressions appearing in `USB3SoC.__init__`:
`~rst_n` (line 117), `~usb3_pipe.ready` (lines 125 and 131) and
`~usb3_serdes.ready` (line 130). -/
inductive SigExpr where
  | notRstN
  | notPipeReady
  | notSerdesReady
deriving DecidableEq

/-- Value of a driver expression given the three signals it can read. -/
def SigExpr.eval (rstn serdesReady pipeReady : Bool) : SigExpr → Bool
  | SigExpr.notRstN => !rstn
  | SigExpr.notSerdesReady => !serdesReady
  | SigExpr.notPipeReady => !pipeReady

/-! ## The statements of `_CRG.__init__` (lines 55-79)

`AsyncResetSynchronizer` is imported at line 12 of the source but never
instantiated: `_CRG` contains no `special` statement, and nothing reads
`por_done` outside the por-domain countdown itself, nor drives the resets
of `cd_sys` or `cd_clk250`.
-/

/-- One statement of a Migen module: its kind (comb, sync, submodule or
special), the clock domain it belongs to, and the signals it writes/reads. -/
structure Stmt where
  kind : String
  domain : String
  writes : List String
  reads : List String
deriving DecidableEq

/-- The statements of `_CRG.__init__`, in source order (lines 64-79):
the clk100 request and period constraint, the por clock wire, the por_done
comparator, the por countdown, and the pll submodule. -/
def crgStatements : List Stmt :=
  [{ kind := "comb", domain := "", writes := ["cd_por.clk"], reads := ["sys_clk"] },
   { kind := "comb", domain := "", writes := ["por_done"], reads := ["por_count"] },
   { kind := "sync", domain := "por", writes := ["por_count"],
     reads := ["por_done", "por_count"] },
   { kind := "submodule", domain := "", writes := [], reads := [] }]

/-! ## System assembly (`USB3SoC.__init__`, lines 83-166) -/

/-- The assembled design: submodules and control-bus endpoints in
instantiation order, the serializer binding, the combinational boolean
wires (target, driver), the stream wires (sink, source) and the registered
timing constraints (domain, frequency). -/
structure SoC where
  submodules : List String
  csrs : List String
  serdes : Option SerdesInfo
  boolWires : List (String × SigExpr)
  streamWires : List (String × String)
  constraints : List (String × Nat)
deriving DecidableEq

/-- Result of running `USB3SoC.__init__`: either the complete design, or a
failure carrying whatever had been instantiated when the exception was
raised. -/
inductive AssembleResult where
  | ok (soc : SoC)
  | fail (sofar : SoC) (msg : String)
deriving DecidableEq

/-- Whether assembly completed. -/
def AssembleResult.isOk : AssembleResult → Bool
  | AssembleResult.ok _ => true
  | AssembleResult.fail _ _ => false

/-- The design state: complete on success, partial at the failure point. -/
def AssembleResult.state : AssembleResult → SoC
  | AssembleResult.ok s => s
  | AssembleResult.fail s _ => s

/-- `USB3SoC.__init__` (lines 83-166), step by step in source order:
SoCMini base (88), `_CRG` with its PLL (91), UARTBone (94), the optional
Etherbone subsystem (97-101), the serializer (104-112), the PIPE link layer
and its reset wire (115-117), the core with its stream connects, reset wire
and CSR (120-127), the LED taps (130-131), and the optional analyzer
(134-166). -/
def usb3SoC (connector : String) (with_etherbone with_analyzer : Bool) :
    AssembleResult :=
  let s0 : SoC :=
    { submodules := ["socmini"], csrs := [], serdes := none,
      boolWires := [], streamWires := [], constraints := [] }
  match clockGen 100000000 [("sys", 125000000), ("clk250", 250000000)] with
  | Except.error e => AssembleResult.fail s0 e
  | Except.ok cs =>
    let s1 := { s0 with
      submodules := s0.submodules ++ ["crg"],
      constraints := ("clk100", 100000000) :: cs }
    let s2 := { s1 with csrs := s1.csrs ++ ["uartbone"] }
    let s3 := if with_etherbone then
        { s2 with
          submodules := s2.submodules ++ ["eth_phy"],
          csrs := s2.csrs ++ ["etherbone"] }
      else s2
    match serdesStep connector with
    | Except.error e => AssembleResult.fail s3 e
    | Except.ok sd =>
      let s4 := { s3 with
        submodules := s3.submodules ++ ["usb3_serdes"],
        serdes := some sd }
      let s5 := { s4 with
        submodules := s4.submodules ++ ["usb3_pipe"],
        boolWires := s4.boolWires ++ [("usb3_pipe.reset", SigExpr.notRstN)] }
      let s6 := { s5 with
        submodules := s5.submodules ++ ["usb3_core"],
        streamWires := s5.streamWires ++
          [("usb3_core.sink", "usb3_pipe.source"),
           ("usb3_pipe.sink", "usb3_core.source")],
        boolWires := s5.boolWires ++ [("usb3_core.reset", SigExpr.notPipeReady)],
        csrs := s5.csrs ++ ["usb3_core"] }
      let s7 := { s6 with
        boolWires := s6.boolWires ++
          [("user_led0", SigExpr.notSerdesReady),
           ("user_led1", SigExpr.notPipeReady)] }
      let s8 := if with_analyzer then
          { s7 with
            submodules := s7.submodules ++ ["analyzer"],
            csrs := s7.csrs ++ ["analyzer"] }
        else s7
      AssembleResult.ok s8

/-! ## Theorems -/

theorem porStep_le (c : Nat) : porStep c ≤ c := by
  unfold porStep por_done
  split
  · exact Nat.le_refl c
  · exact Nat.sub_le c 1

theorem porCount_closed (n : Nat) : porCount n = porInit - n := by
  induction n with
  | zero => rfl
  | succ n ih =>
    show porStep (porCount n) = porInit - (n + 1)
    rw [ih]
    unfold porStep por_done
    rcases Nat.eq_zero_or_pos (porInit - n) with h | h
    · simp [h]
      omega
    · have hne : (porInit - n == 0) = false := by
        simp [Nat.pos_iff_ne_zero.mp h]
      rw [hne]
      simp
      omega

theorem sinkTrace_eq_sourceTrace (srcs : List FwdDrive) (readys : List Bool) :
    sinkTrace srcs readys = sourceTrace srcs readys := rfl

/-- C1: for the power-on-reset sequencer activated at cycle 0 with initial
counter `C = 2^16-1`, the counter decrements by exactly 1 on every active
cycle while it is greater than 0, `done` is false for all cycles in
`[0, C)` and true from cycle `C` onward, and the counter never goes below
zero: decrementing stops once it reaches 0. -/
theorem C1_por_sequencer (n : Nat) :
    (0 < porCount n → porCount (n + 1) + 1 = porCount n) ∧
    (n < porInit → por_done (porCount n) = false) ∧
    (porInit ≤ n → por_done (porCount n) = true) ∧
    (porCount n = 0 → porCount (n + 1) = 0) := by
  refine ⟨fun h => ?_, fun h => ?_, fun h => ?_, fun h => ?_⟩
  · have h1 := porCount_closed n
    have h2 := porCount_closed (n + 1)
    omega
  · have h1 := porCount_closed n
    have h2 : porInit - n ≠ 0 := by omega
    simp [por_done, h1, h2]
  · have h1 := porCount_closed n
    have h2 : porInit - n = 0 := by omega
    simp [por_done, h1, h2]
  · show porStep (porCount n) = 0
    rw [h]
    rfl

/-- Witness for C1 at concrete cycles: an active decrement at cycle 3, done
still false there, done true at cycle 65535, and the counter frozen at 0
afterwards. -/
theorem C1_por_sequencer_witness :
    porCount 4 + 1 = porCount 3 ∧ por_done (porCount 3) = false ∧
    por_done (porCount 65535) = true ∧ porCount 65536 = 0 := by
  refine ⟨(C1_por_sequencer 3).1 (by decide), (C1_por_sequencer 3).2.1 (by decide),
          (C1_por_sequencer 65535).2.2.1 (by decide),
          (C1_por_sequencer 65535).2.2.2 ((porCount_closed 65535).trans (by decide))⟩

/-- C10: the por domain is reset-less, no operation ever increases (in
particular reloads) the counter, and once the done flag asserts it never
deasserts: done is monotone over cycles. -/
theorem C10_done_monotone :
    cd_por_reset_less = true ∧ (∀ c, porStep c ≤ c) ∧
    (∀ n m, n ≤ m → por_done (porCount n) = true → por_done (porCount m) = true) := by
  refine ⟨rfl, porStep_le, fun n m h hd => ?_⟩
  have h1 := porCount_closed n
  have h2 := porCount_closed m
  simp only [por_done, h1, beq_iff_eq] at hd
  simp only [por_done, h2, beq_iff_eq]
  omega

/-- Witness for C10: done holds at cycle 65535 and therefore still holds at
cycle 70000. -/
theorem C10_done_monotone_witness : por_done (porCount 70000) = true :=
  C10_done_monotone.2.2 65535 70000 (by decide)
    (by rw [porCount_closed]; decide)

/-- C2: `connect(source, sink)` wires source.valid to sink.valid,
source.payload to sink.payload, source.first/last to sink.first/last, and
the reverse wire sink.ready to source.ready; the forward channel does not
depend on the sink's readiness and the backward channel does not depend on
the source's drive, so the two directional channels are independent. -/
theorem C2_connect_wiring (src src' : FwdDrive) (r r' : Bool) :
    ((connect src r).2.valid = src.valid ∧
     (connect src r).2.payload = src.payload ∧
     (connect src r).2.first = src.first ∧
     (connect src r).2.last = src.last) ∧
    (connect src r).1.ready = r ∧
    ((connect src r).2.valid = (connect src r').2.valid ∧
     (connect src r).2.payload = (connect src r').2.payload ∧
     (connect src r).2.first = (connect src r').2.first ∧
     (connect src r).2.last = (connect src r').2.last) ∧
    (connect src r).1.ready = (connect src' r).1.ready :=
  ⟨⟨rfl, rfl, rfl, rfl⟩, rfl, ⟨rfl, rfl, rfl, rfl⟩, rfl⟩

/-- C3: over any valid/ready sequence on a connected pair, the payloads
transferred at the sink equal, in number and order, those produced at the
source; a transfer occurs on a cycle iff valid and ready are both asserted
there, and never on a cycle where either is deasserted. -/
theorem C3_stream_transfers (srcs : List FwdDrive) (readys : List Bool) :
    transfers (sinkTrace srcs readys) = transfers (sourceTrace srcs readys) ∧
    (∀ e ∈ sinkTrace srcs readys, (xfer e = true ↔ e.valid = true ∧ e.ready = true)) ∧
    (∀ e ∈ sinkTrace srcs readys, e.valid = false ∨ e.ready = false → xfer e = false) := by
  refine ⟨by rw [sinkTrace_eq_sourceTrace], fun e _ => ?_, fun e _ h => ?_⟩
  · simp [xfer]
  · rcases h with h | h <;> simp [xfer, h]

/-- Witness for C3 on the demo trace: equal transfer lists, and the two
non-transfer cycles (ready without valid, valid without ready). -/
theorem C3_stream_transfers_witness :
    transfers (sinkTrace demoDrives demoReadys) =
      transfers (sourceTrace demoDrives demoReadys) ∧
    (xfer demoSink3 = true ↔ demoSink3.valid = true ∧ demoSink3.ready = true) ∧
    xfer demoSink2 = false := by
  refine ⟨(C3_stream_transfers demoDrives demoReadys).1,
          (C3_stream_transfers demoDrives demoReadys).2.1 demoSink3 (by decide),
          (C3_stream_transfers demoDrives demoReadys).2.2 demoSink2 (by decide)
            (Or.inr (by decide))⟩

theorem clockGen_sys_clk250 :
    clockGen 100000000 [("sys", 125000000), ("clk250", 250000000)] =
      Except.ok [("sys", 125000000), ("clk250", 250000000)] := by
  have h : pllAchievable 100000000 [125000000, 250000000] = true := by decide
  simp [clockGen, h]

theorem serdesStep_error (c : String) (h : connectorSupported c = false) :
    ∃ e, serdesStep c = Except.error e := by
  unfold serdesStep platformRequest
  cases h1 : platformResources.contains (c ++ "_tx") with
  | false => exact ⟨"no resource " ++ (c ++ "_tx"), by simp [h1]⟩
  | true =>
    cases h2 : platformResources.contains (c ++ "_rx") with
    | false => exact ⟨"no resource " ++ (c ++ "_rx"), by simp [h1, h2]⟩
    | true =>
      unfold connectorSupported at h
      rw [h1, h2] at h
      simp at h

theorem usb3SoC_fail_of_unsupported (c : String) (we wa : Bool)
    (h : connectorSupported c = false) : (usb3SoC c we wa).isOk = false := by
  obtain ⟨e, he⟩ := serdesStep_error c h
  unfold usb3SoC
  rw [clockGen_sys_clk250, he]
  rfl

/-- C5: the clock-domain generator fails at configuration time when the
requested output set is jointly unachievable by a single multiplier
configuration within its valid band; an achievable set succeeds with
exactly one timing constraint per output domain, and the design's own
requested set (sys at 125 MHz, clk250 at 250 MHz from a 100 MHz input) is
achievable, each of its two domains getting exactly one constraint. -/
theorem C5_clockgen (clkin : Nat) (outs : List (String × Nat)) :
    (pllAchievable clkin (outs.map Prod.snd) = false →
      ∃ e, clockGen clkin outs = Except.error e) ∧
    (pllAchievable clkin (outs.map Prod.snd) = true →
      clockGen clkin outs = Except.ok outs) ∧
    pllAchievable 100000000 [125000000, 250000000] = true ∧
    ((usb3SoC "pcie" false false).state.constraints.filter
        (fun c => c.1 == "sys")).length = 1 ∧
    ((usb3SoC "pcie" false false).state.constraints.filter
        (fun c => c.1 == "clk250")).length = 1 := by
  refine ⟨fun h => ⟨"pll: unachievable output set", by simp [clockGen, h]⟩,
          fun h => by simp [clockGen, h], by decide, by decide, by decide⟩

/-- Witness for C5: an unachievable single-output set (333 Hz) is refused,
and the design's own output set is accepted. -/
theorem C5_clockgen_witness :
    (∃ e, clockGen 100000000 [("sys", 333)] = Except.error e) ∧
    clockGen 100000000 [("sys", 125000000), ("clk250", 250000000)] =
      Except.ok [("sys", 125000000), ("clk250", 250000000)] := by
  exact ⟨(C5_clockgen 100000000 [("sys", 333)]).1 (by decide),
         (C5_clockgen 100000000
           [("sys", 125000000), ("clk250", 250000000)]).2.1 (by decide)⟩

/-- C4 counterexample: with the unsupported connector value "usb", assembly
does fail, but not before any logic is instantiated: at the failure point
the CRG submodule and the UARTBone endpoint already exist, so the claim's
"fails before any logic is instantiated, producing no partially wired
design" is false as stated. -/
theorem C4_counterexample :
    connectorSupported "usb" = false ∧
    (usb3SoC "usb" false false).isOk = false ∧
    "crg" ∈ (usb3SoC "usb" false false).state.submodules ∧
    "uartbone" ∈ (usb3SoC "usb" false false).state.csrs := by decide

/-- C4 (amended): for every connector value whose pad resources are absent
from the platform (any value outside the supported set sma, pcie), assembly
raises when the serializer requests the connector's pads and therefore
never completes — no fully assembled design is produced, though the
submodules created before the serializer step exist at the failure point;
for the supported values the serializer's channel index and pad groups are
bound per connector: channel 1 with pads W8/W9 and Y7/Y8 for sma, channel 0
with pads W4/W5 and Y5/Y6 for pcie. -/
theorem C4_connector (connector : String) (we wa : Bool) :
    (connectorSupported connector = false →
      (usb3SoC connector we wa).isOk = false) ∧
    (usb3SoC "sma" we wa).state.serdes =
      some { channel := 1, txPins := ["W8", "W9"], rxPins := ["Y7", "Y8"] } ∧
    (usb3SoC "pcie" we wa).state.serdes =
      some { channel := 0, txPins := ["W4", "W5"], rxPins := ["Y5", "Y6"] } := by
  refine ⟨fun h => usb3SoC_fail_of_unsupported connector we wa h, ?_, ?_⟩ <;>
    cases we <;> cases wa <;> decide

/-- Witness for C4 (amended) at the unsupported connector value "usb". -/
theorem C4_connector_witness :
    (usb3SoC "usb" true false).isOk = false ∧
    (usb3SoC "sma" true false).state.serdes =
      some { channel := 1, txPins := ["W8", "W9"], rxPins := ["Y7", "Y8"] } ∧
    (usb3SoC "pcie" true false).state.serdes =
      some { channel := 0, txPins := ["W4", "W5"], rxPins := ["Y5", "Y6"] } := by
  refine ⟨(C4_connector "usb" true false).1 (by decide),
          (C4_connector "x" true false).2.1, (C4_connector "x" true false).2.2⟩

/-- C6: for every configuration with a supported connector, the assembled
system contains the serializer, link layer and core logic; it contains the
Ethernet-control subsystem, with exactly one additional control-bus
endpoint, iff `with_etherbone`, and the debug-capture subsystem iff
`with_analyzer`. -/
theorem C6_subsystems (connector : String) (we wa : Bool)
    (h : connector = "sma" ∨ connector = "pcie") :
    (usb3SoC connector we wa).isOk = true ∧
    "usb3_serdes" ∈ (usb3SoC connector we wa).state.submodules ∧
    "usb3_pipe" ∈ (usb3SoC connector we wa).state.submodules ∧
    "usb3_core" ∈ (usb3SoC connector we wa).state.submodules ∧
    ("eth_phy" ∈ (usb3SoC connector we wa).state.submodules ↔ we = true) ∧
    ((usb3SoC connector we wa).state.csrs.filter
        (fun c => c == "etherbone")).length = (if we then 1 else 0) ∧
    ("analyzer" ∈ (usb3SoC connector we wa).state.submodules ↔ wa = true) := by
  rcases h with h | h <;> subst h <;> cases we <;> cases wa <;> decide

/-- Witness for C6: the fully-enabled sma configuration. -/
theorem C6_subsystems_witness :
    (usb3SoC "sma" true true).isOk = true ∧
    "usb3_serdes" ∈ (usb3SoC "sma" true true).state.submodules ∧
    "usb3_pipe" ∈ (usb3SoC "sma" true true).state.submodules ∧
    "usb3_core" ∈ (usb3SoC "sma" true true).state.submodules ∧
    ("eth_phy" ∈ (usb3SoC "sma" true true).state.submodules ↔ true = true) ∧
    ((usb3SoC "sma" true true).state.csrs.filter
        (fun c => c == "etherbone")).length = (if true then 1 else 0) ∧
    ("analyzer" ∈ (usb3SoC "sma" true true).state.submodules ↔ true = true) :=
  C6_subsystems "sma" true true (Or.inl rfl)

/-- C7: in the assembled design the status outputs are driven purely
combinationally from the two readiness signals: the driver of user_led0
evaluates to NOT serializer-ready and the driver of user_led1 evaluates to
NOT link-ready, for every combination of the readiness signals (and
independently of the reset input); the drivers read only the readiness and
reset signals, never the LED outputs themselves. -/
theorem C7_led_taps (rstn serdesReady pipeReady : Bool) :
    ((usb3SoC "pcie" false false).state.boolWires.lookup ("user_led0")).map
        (fun d => SigExpr.eval rstn serdesReady pipeReady d) =
      some (!serdesReady) ∧
    ((usb3SoC "pcie" false false).state.boolWires.lookup ("user_led1")).map
        (fun d => SigExpr.eval rstn serdesReady pipeReady d) =
      some (!pipeReady) := by
  cases rstn <;> cases serdesReady <;> cases pipeReady <;> decide

/-- C8 (code evaluation at the failing input): `_CRG` contains no
synchronizer statement at all — the AsyncResetSynchronizer import is never
instantiated — the only statement reading por_done is the por-domain
countdown itself, and no statement drives the resets of the dependent
cd_sys or cd_clk250 domains; so the asynchronous done flag is not passed
through any domain-local synchronizer, it is simply left unconsumed. -/
theorem C8_no_synchronizer :
    crgStatements.all (fun s => s.kind != "special") = true ∧
    (crgStatements.filter (fun s => s.reads.contains ("por_done"))).all
        (fun s => s.kind == "sync" && s.domain == "por") = true ∧
    crgStatements.all
        (fun s => !(s.writes.contains ("cd_sys.rst")) &&
                  !(s.writes.contains ("cd_clk250.rst"))) = true := by decide

/-- C9 counterexample: in the assembled design the serializer has no reset
wire at all — so the system reset does not propagate to every subsystem —
and the link layer's reset is driven by NOT rst_n alone, which evaluates
to deasserted as soon as rst_n is released, with no dependence on the
power-on-reset sequencer's done flag. -/
theorem C9_counterexample :
    (usb3SoC "pcie" false false).state.boolWires.lookup ("usb3_serdes.reset") =
      none ∧
    (usb3SoC "pcie" false false).state.boolWires.lookup ("usb3_pipe.reset") =
      some SigExpr.notRstN ∧
    SigExpr.eval true false false SigExpr.notRstN = false := by decide

/-- C9 (amended): asserting the system-reset input (rst_n low) asserts the
link layer's reset combinationally; the core logic's reset is asserted
whenever the link layer is not ready, so it is held while the link layer
recovers; the serializer receives no reset wire, and no subsystem reset is
gated by the power-on-reset sequencer's done flag — each reset deasserts
as soon as its combinational driver does. -/
theorem C9_reset_wiring (rstn serdesReady pipeReady we wa : Bool) :
    ((usb3SoC "pcie" we wa).state.boolWires.lookup ("usb3_pipe.reset")).map
        (fun d => SigExpr.eval rstn serdesReady pipeReady d) = some (!rstn) ∧
    ((usb3SoC "pcie" we wa).state.boolWires.lookup ("usb3_core.reset")).map
        (fun d => SigExpr.eval rstn serdesReady pipeReady d) =
      some (!pipeReady) ∧
    (usb3SoC "pcie" we wa).state.boolWires.lookup ("usb3_serdes.reset") =
      none := by
  cases rstn <;> cases serdesReady <;> cases pipeReady <;> cases we <;>
    cases wa <;> decide
